import Mathlib

/-!
Shallow embedding of the process-manager core of `app.py` (a Flask app that
uploads Python scripts, sniffs their dependencies, installs them, spawns the
script as a managed child process, and tracks it in an in-memory registry).

Script source text is modelled as `List Char` (Python `str`).  Filesystem,
subprocess and wall-clock effects are modelled by explicit parameters:
the outcome of the `pip install` subprocess, the outcome of `subprocess.Popen`
(either success yielding a fresh OS handle, or an exception carrying a
message), and an exit-poll oracle `poll : Nat → Option Int` giving, for an OS
handle, `none` while the child has not exited and `some code` afterwards.
Wall-clock timestamps (`start_time`) are not modelled.
-/

namespace WebsiteHosting

/-- Python `s.startswith(pat)` on character lists: `startsWithL pat s`. -/
def startsWithL : List Char → List Char → Bool
  | [], _ => true
  | _ :: _, [] => false
  | a :: pat, b :: s => decide (a = b) && startsWithL pat s

/-- Python `needle in hay` (substring containment) on character lists. -/
def pySubstrIn (needle : List Char) : List Char → Bool
  | [] => startsWithL needle []
  | c :: rest => startsWithL needle (c :: rest) || pySubstrIn needle rest

/-- Python `s.split(sep)` for a single-character separator
(`''.split(sep) = ['']`, empty pieces kept). -/
def splitOnChar (sep : Char) : List Char → List (List Char)
  | [] => [[]]
  | c :: cs =>
    if c = sep then [] :: splitOnChar sep cs
    else
      match splitOnChar sep cs with
      | [] => [[c]]
      | r :: rs => (c :: r) :: rs

/-- Python `s.strip()`: drop leading and trailing whitespace. -/
def pyStrip (l : List Char) : List Char :=
  ((l.dropWhile Char.isWhitespace).reverse.dropWhile Char.isWhitespace).reverse

/-- Worker for `pySplitWs`; `acc` holds the current word reversed. -/
def pySplitWsAux (acc : List Char) : List Char → List (List Char)
  | [] => if acc = [] then [] else [acc.reverse]
  | c :: cs =>
    if c.isWhitespace then
      if acc = [] then pySplitWsAux [] cs else acc.reverse :: pySplitWsAux [] cs
    else pySplitWsAux (c :: acc) cs

/-- Python `s.split()` (no argument): split on whitespace runs, no empty parts. -/
def pySplitWs (l : List Char) : List (List Char) :=
  pySplitWsAux [] l

/-- Python `s.lower()`. -/
def lowerL (l : List Char) : List Char :=
  l.map Char.toLower

/-- Python `' '.join(parts)`. -/
def pyJoinSpace (parts : List (List Char)) : List Char :=
  List.intercalate " ".data parts

/-- The fixed `common_imports` table of `get_requirements_from_code`
(module name → package name). -/
def common_imports : List (List Char × List Char) :=
  [("flask".data, "Flask".data),
   ("django".data, "Django".data),
   ("numpy".data, "numpy".data),
   ("pandas".data, "pandas".data),
   ("requests".data, "requests".data),
   ("matplotlib".data, "matplotlib".data),
   ("tensorflow".data, "tensorflow".data),
   ("torch".data, "torch".data),
   ("sklearn".data, "scikit-learn".data),
   ("sqlalchemy".data, "SQLAlchemy".data),
   ("bs4".data, "beautifulsoup4".data),
   ("pillow".data, "Pillow".data)]

/-- Python `module in table` / `table[module]` on the association list. -/
def lookupTable (k : List Char) : List (List Char × List Char) → Option (List Char)
  | [] => none
  | p :: rest => if p.1 = k then some p.2 else lookupTable k rest

/-- The per-line body of the scan loop of `get_requirements_from_code`:
strip the line; if it starts with `import ` or `from ` and has a second
whitespace-separated token, look up the token's first dotted-path segment in
`common_imports`; `some pkg` exactly when the loop appends `pkg`. -/
def lineRequirement (line : List Char) : Option (List Char) :=
  let line := pyStrip line
  if startsWithL "import ".data line || startsWithL "from ".data line then
    match pySplitWs line with
    | _ :: p1 :: _ => lookupTable (p1.takeWhile (fun c => c != '.')) common_imports
    | _ => none
  else none

/-- `get_requirements_from_code`: scan all lines, default to `['flask']` when
nothing was recognized, and return `list(set(...))` (duplicates removed). -/
def get_requirements_from_code (code : List Char) : List (List Char) :=
  let lines := splitOnChar '\n' code
  let requirements := lines.filterMap lineRequirement
  let requirements := if requirements = [] then ["flask".data] else requirements
  requirements.dedup

/-- `install_requirements`: returns `True` at once when the list is empty;
otherwise writes the manifest and runs `pip install`, whose success or failure
(non-zero exit or raised exception, both caught) is the `pipOk` parameter. -/
def install_requirements (requirements : List (List Char)) (pipOk : Bool) : Bool :=
  if requirements = [] then true else pipOk

/-- Log-file path of a run: `os.path.join('processes', f"{pid}.log")`. -/
def logPath (pid : List Char) : List Char :=
  "processes/".data ++ pid ++ ".log".data

/-- A `ManagedProcess` record: run identity, source filename, optional port,
derived log path, and the optional OS process handle (an OS pid; `none` models
Python's `self.process = None`).  `start_time` is not modelled. -/
structure ManagedProcess where
  pid : List Char
  filename : List Char
  port : Option Nat
  log_file : List Char
  process : Option Nat
  deriving DecidableEq

/-- The global `processes` dict, as an association list keyed by run identity
(Python dicts keep each key once; the spawn path inserts under a fresh key). -/
abbrev Registry := List (List Char × ManagedProcess)

/-- Python `processes.get(pid)` / `pid in processes`. -/
def lookupReg : Registry → List Char → Option ManagedProcess
  | [], _ => none
  | p :: rest, k => if p.1 = k then some p.2 else lookupReg rest k

/-- Python `del processes[pid]`. -/
def eraseReg : Registry → List Char → Registry
  | [], _ => []
  | p :: rest, k => if p.1 = k then eraseReg rest k else p :: eraseReg rest k

/-- Python `processes[pid] = m` (replace an existing key, else append). -/
def insertReg : Registry → List Char → ManagedProcess → Registry
  | [], k, m => [(k, m)]
  | p :: rest, k, m => if p.1 = k then (k, m) :: rest else p :: insertReg rest k m

/-- `ManagedProcess.stop`.  The two Booleans say whether the OS calls raise:
`termRaises` — the `killpg`/`terminate`/`wait(timeout=5)` block raises;
`killRaises` — the fallback `self.process.kill()` raises (caught by the bare
`except: pass`).  The `finally` clause clears the handle, then the entry is
deleted from the registry and `True` is returned. -/
def ManagedProcess.stop (m : ManagedProcess) (termRaises killRaises : Bool)
    (reg : Registry) : Except (List Char) (Bool × ManagedProcess × Registry) := do
  let m ←
    match m.process with
    | none => pure m
    | some _ =>
      let tryBody : Except (List Char) Unit :=
        if termRaises then Except.error "OSError".data else Except.ok ()
      let handler : Except (List Char) Unit :=
        match (if killRaises then Except.error "OSError".data
               else Except.ok () : Except (List Char) Unit) with
        | Except.ok _ => Except.ok ()
        | Except.error _ => Except.ok ()
      match (match tryBody with
             | Except.ok _ => Except.ok ()
             | Except.error _ => handler : Except (List Char) Unit) with
      | Except.ok _ => pure { m with process := none }
      | Except.error e => Except.error e
  let reg := if (lookupReg reg m.pid).isSome then eraseReg reg m.pid else reg
  pure (true, m, reg)

/-- Route `/stop/<pid>`: look the identity up; stop and flash success when
present, otherwise flash `Process not found`.  Returns the flashed message and
the resulting registry. -/
def stop_process (pid : List Char) (termRaises killRaises : Bool)
    (reg : Registry) : Except (List Char) (List Char × Registry) := do
  match lookupReg reg pid with
  | some m => do
    let (_, _, reg) ← m.stop termRaises killRaises reg
    pure ("Process ".data ++ pid ++ " stopped successfully".data, reg)
  | none => pure ("Process not found".data, reg)

/-- The loop of `/delete/<filename>` over `list(processes.items())`: stop every
snapshot entry whose `filename` matches.  `raises` gives, per run identity, the
raise-flags for the OS calls inside that run's `stop`. -/
def stopMatching (filename : List Char) (raises : List Char → Bool × Bool) :
    List (List Char × ManagedProcess) → Registry → Except (List Char) Registry
  | [], reg => pure reg
  | (pid, m) :: rest, reg =>
    if m.filename = filename then do
      let (_, _, reg) ← m.stop (raises pid).1 (raises pid).2 reg
      stopMatching filename raises rest reg
    else stopMatching filename raises rest reg

/-- Route `/delete/<filename>`: stop all runs referencing the file, then remove
the file when it exists (`files` is the upload folder's contents).  Returns the
flashed message, the resulting registry and the resulting folder contents. -/
def delete_file (filename : List Char) (raises : List Char → Bool × Bool)
    (reg : Registry) (files : List (List Char)) :
    Except (List Char) (List Char × Registry × List (List Char)) := do
  let reg ← stopMatching filename raises reg reg
  if filename ∈ files then
    pure ("File ".data ++ filename ++ " deleted successfully".data,
          reg, files.erase filename)
  else
    pure ("File not found".data, reg, files)

/-- The server-detection heuristic of `run_python_file`:
`'flask' in ' '.join(requirements).lower() or 'app.run' in code.lower()`. -/
def isServerStyle (requirements : List (List Char)) (code : List Char) : Bool :=
  pySubstrIn "flask".data (lowerL (pyJoinSpace requirements)) ||
    pySubstrIn "app.run".data (lowerL code)

/-- Observable outcome of one `run_python_file` call. -/
structure RunResult where
  ok : Bool
  reg : Registry
  log : List Char
  spawned : Bool
  portAssigned : Option Nat
  envPort : Option Nat
  slept : Bool
  deriving DecidableEq

/-- `run_python_file`: sniff requirements from `code` (the file's content),
install them (`pipOk` is the installer subprocess outcome), then either the
Flask-app branch (allocate port `5000 + len(processes)`, set `PORT` in the
child's environment unless `'port='` occurs in the raw source, spawn in its own
process group, register, `time.sleep(3)`) or the plain-script branch (spawn,
register, no port, no sleep).  `spawnExc = some e` models `subprocess.Popen`
raising with message `e`: the handler appends `Error: {e}\n` to the log and
returns `False` without registering.  `newHandle` is the OS handle `Popen`
yields on success; `log` is the current content of the run's log file. -/
def run_python_file (filename pid code : List Char) (pipOk : Bool)
    (spawnExc : Option (List Char)) (newHandle : Nat)
    (reg : Registry) (log : List Char) : RunResult :=
  let requirements := get_requirements_from_code code
  if ! install_requirements requirements pipOk then
    { ok := false, reg := reg, log := log, spawned := false,
      portAssigned := none, envPort := none, slept := false }
  else if isServerStyle requirements code then
    let port := 5000 + reg.length
    let envPort := if pySubstrIn "port=".data code then none else some port
    match spawnExc with
    | some e =>
      { ok := false, reg := reg, log := log ++ "Error: ".data ++ e ++ "\n".data,
        spawned := false, portAssigned := none, envPort := none, slept := false }
    | none =>
      let m : ManagedProcess :=
        { pid := pid, filename := filename, port := some port,
          log_file := logPath pid, process := some newHandle }
      { ok := true, reg := insertReg reg pid m, log := log, spawned := true,
        portAssigned := some port, envPort := envPort, slept := true }
  else
    match spawnExc with
    | some e =>
      { ok := false, reg := reg, log := log ++ "Error: ".data ++ e ++ "\n".data,
        spawned := false, portAssigned := none, envPort := none, slept := false }
    | none =>
      let m : ManagedProcess :=
        { pid := pid, filename := filename, port := none,
          log_file := logPath pid, process := some newHandle }
      { ok := true, reg := insertReg reg pid m, log := log, spawned := true,
        portAssigned := none, envPort := none, slept := false }

/-- The dashboard's per-run status expression
`'Running' if proc.process and proc.process.poll() is None else 'Stopped'`. -/
def run_status (poll : Nat → Option Int) (m : ManagedProcess) : List Char :=
  match m.process with
  | some h => if poll h = none then "Running".data else "Stopped".data
  | none => "Stopped".data

/-- The `/api/processes` field `proc.process and proc.process.poll() is None`:
Python `None` (serialized `null`) when the handle is cleared, else the Boolean
of the poll comparison. -/
def api_running (poll : Nat → Option Int) (m : ManagedProcess) : Option Bool :=
  match m.process with
  | some h => some (poll h).isNone
  | none => none

/-- Route `/api/processes`: one row `(pid, filename, port, running)` per
registry entry (`start_time` omitted from the model). -/
def api_processes (poll : Nat → Option Int) (reg : Registry) :
    List (List Char × List Char × Option Nat × Option Bool) :=
  reg.map fun p => (p.1, p.2.filename, p.2.port, api_running poll p.2)

/-- The dashboard's process table: one row `(pid, filename, port, status)` per
registry entry. -/
def dashboard (poll : Nat → Option Int) (reg : Registry) :
    List (List Char × List Char × Option Nat × List Char) :=
  reg.map fun p => (p.1, p.2.filename, p.2.port, run_status poll p.2)

/-- The registry update performed at the end of `ManagedProcess.stop`:
`if self.pid in processes: del processes[self.pid]`. -/
def stopRegUpd (reg : Registry) (k : List Char) : Registry :=
  if (lookupReg reg k).isSome then eraseReg reg k else reg

/-- Pure registry effect of the stop loop of `/delete/<filename>` (proved equal
to `stopMatching` below). -/
def stopMatchingPure (filename : List Char) :
    List (List Char × ManagedProcess) → Registry → Registry
  | [], reg => reg
  | (_, m) :: rest, reg =>
    if m.filename = filename then stopMatchingPure filename rest (stopRegUpd reg m.pid)
    else stopMatchingPure filename rest reg

/-- Concrete registered run used by witnesses (a live handle). -/
def sampleRun1 : ManagedProcess :=
  { pid := "a1".data, filename := "f.py".data, port := none,
    log_file := logPath "a1".data, process := some 3 }

/-- Concrete registered server-style run used by witnesses. -/
def sampleRun2 : ManagedProcess :=
  { pid := "b2".data, filename := "f.py".data, port := some 5000,
    log_file := logPath "b2".data, process := some 4 }

/-- Concrete registry with two runs of the same script, used by witnesses. -/
def sampleReg : Registry :=
  [("a1".data, sampleRun1), ("b2".data, sampleRun2)]

/-! ## Helper lemmas -/

theorem ok_bind {ε α β : Type} (x : α) (f : α → Except ε β) :
    (Except.ok x >>= f : Except ε β) = f x := rfl

theorem stop_eq (m : ManagedProcess) (t k : Bool) (reg : Registry) :
    m.stop t k reg = Except.ok (true, { m with process := none }, stopRegUpd reg m.pid) := by
  obtain ⟨pid, fn, port, lf, pr⟩ := m
  cases pr <;> cases t <;> cases k <;> rfl

theorem lookupReg_eraseReg (reg : Registry) (k q : List Char) :
    lookupReg (eraseReg reg k) q = if q = k then none else lookupReg reg q := by
  induction reg with
  | nil => simp [eraseReg, lookupReg]
  | cons p rest ih =>
    by_cases hpk : p.1 = k <;> by_cases hpq : p.1 = q <;>
      simp_all [eraseReg, lookupReg]

theorem lookupReg_stopRegUpd_self (reg : Registry) (k : List Char) :
    lookupReg (stopRegUpd reg k) k = none := by
  unfold stopRegUpd
  cases h : lookupReg reg k with
  | none => simp [h]
  | some m => simp [h, lookupReg_eraseReg]

theorem lookupReg_stopRegUpd_none {reg : Registry} {q : List Char} (k : List Char)
    (h : lookupReg reg q = none) : lookupReg (stopRegUpd reg k) q = none := by
  unfold stopRegUpd
  split <;> simp [lookupReg_eraseReg, h]

theorem lookupReg_insertReg_self (reg : Registry) (k : List Char) (m : ManagedProcess) :
    lookupReg (insertReg reg k m) k = some m := by
  induction reg with
  | nil => simp [insertReg, lookupReg]
  | cons p rest ih => by_cases h : p.1 = k <;> simp [insertReg, lookupReg, h, ih]

theorem stopMatching_eq (filename : List Char) (raises : List Char → Bool × Bool)
    (items : List (List Char × ManagedProcess)) : ∀ reg : Registry,
    stopMatching filename raises items reg =
      Except.ok (stopMatchingPure filename items reg) := by
  induction items with
  | nil => intro reg; rfl
  | cons p rest ih =>
    intro reg
    obtain ⟨pid, m⟩ := p
    by_cases h : m.filename = filename
    · simp only [stopMatching, stopMatchingPure, if_pos h, stop_eq]
      exact ih (stopRegUpd reg m.pid)
    · simp only [stopMatching, stopMatchingPure, if_neg h]
      exact ih reg

theorem stopMatchingPure_none (filename : List Char)
    (items : List (List Char × ManagedProcess)) : ∀ (reg : Registry) (q : List Char),
    lookupReg reg q = none →
      lookupReg (stopMatchingPure filename items reg) q = none := by
  induction items with
  | nil => intro _ _ h; exact h
  | cons p rest ih =>
    intro reg q h
    obtain ⟨pid, m⟩ := p
    by_cases hf : m.filename = filename
    · simp only [stopMatchingPure, if_pos hf]
      exact ih _ _ (lookupReg_stopRegUpd_none _ h)
    · simp only [stopMatchingPure, if_neg hf]
      exact ih _ _ h

theorem stopMatchingPure_stops (filename : List Char)
    (items : List (List Char × ManagedProcess)) : ∀ reg : Registry,
    (∀ p ∈ items, (p : List Char × ManagedProcess).2.pid = p.1) →
      ∀ p ∈ items, (p : List Char × ManagedProcess).2.filename = filename →
        lookupReg (stopMatchingPure filename items reg) p.1 = none := by
  induction items with
  | nil => intro reg _ p hp; exact absurd hp (List.not_mem_nil p)
  | cons hd rest ih =>
    intro reg hwf p hp hfil
    obtain ⟨pid, m⟩ := hd
    rcases List.mem_cons.mp hp with rfl | hp'
    · simp only [stopMatchingPure, if_pos hfil]
      have hpid : m.pid = pid := hwf (pid, m) (List.mem_cons_self _ _)
      refine stopMatchingPure_none filename rest _ _ ?_
      rw [hpid]
      exact lookupReg_stopRegUpd_self reg pid
    · have hwf' : ∀ q ∈ rest, (q : List Char × ManagedProcess).2.pid = q.1 :=
        fun q hq => hwf q (List.mem_cons_of_mem _ hq)
      by_cases hf : m.filename = filename
      · simp only [stopMatchingPure, if_pos hf]
        exact ih _ hwf' p hp' hfil
      · simp only [stopMatchingPure, if_neg hf]
        exact ih _ hwf' p hp' hfil

theorem get_requirements_default (code : List Char)
    (h : ∀ l ∈ splitOnChar '\n' code, lineRequirement l = none) :
    get_requirements_from_code code = ["flask".data] := by
  simp only [get_requirements_from_code]
  rw [List.filterMap_eq_nil_iff.mpr h]
  rfl

theorem isServerStyle_flask_default (code : List Char) :
    isServerStyle ["flask".data] code = true := by
  unfold isServerStyle
  rw [show pySubstrIn "flask".data (lowerL (pyJoinSpace ["flask".data])) = true from rfl]
  exact Bool.true_or _

theorem install_flask_default (pipOk : Bool) :
    install_requirements ["flask".data] pipOk = pipOk := rfl

/-! ## Claim theorems -/

/-- Claim C1, counterexample: for `hello.py` containing only `print("hi")`, the
sniffer defaults to `['flask']`, so `run_python_file` takes the Flask-app
branch: the fixed 3-second delay is taken and `/api/processes` reports
`port = 5000`, not `null` — refuting the claim's plain-batch-run behaviour. -/
theorem hello_batch_claim_false :
    (run_python_file "hello.py".data "abc12345".data "print(\"hi\")".data
        true none 7 [] []).slept = true ∧
      api_processes (fun _ => none)
          (run_python_file "hello.py".data "abc12345".data "print(\"hi\")".data
            true none 7 [] []).reg
        = [("abc12345".data, "hello.py".data, some 5000, some true)] := by
  constructor <;> decide

/-- Claim C1, amended: a script in which no line maps to a recognized module is
treated as a server-style run — the default sniffed dependency `['flask']`
satisfies the detection heuristic, so a port `5000 + len(processes)` is
allocated (and recorded on the registered run), and the fixed post-launch
delay is taken. -/
theorem default_sniff_spawns_server_style (filename pid code : List Char)
    (newHandle : Nat) (reg : Registry) (log : List Char)
    (h : ∀ l ∈ splitOnChar '\n' code, lineRequirement l = none) :
    (run_python_file filename pid code true none newHandle reg log).ok = true ∧
      (run_python_file filename pid code true none newHandle reg log).portAssigned
        = some (5000 + reg.length) ∧
      (run_python_file filename pid code true none newHandle reg log).slept = true ∧
      lookupReg (run_python_file filename pid code true none newHandle reg log).reg pid
        = some { pid := pid, filename := filename, port := some (5000 + reg.length),
                 log_file := logPath pid, process := some newHandle } := by
  have hreq := get_requirements_default code h
  have hinst : install_requirements (get_requirements_from_code code) true = true := by
    rw [hreq, install_flask_default]
  have hsrv : isServerStyle (get_requirements_from_code code) code = true := by
    rw [hreq]
    exact isServerStyle_flask_default code
  simp [run_python_file, hinst, hsrv, lookupReg_insertReg_self]

/-- Claim C1 witness for the amended theorem, at the `print("hi")` script. -/
theorem default_sniff_spawns_server_style_witness :
    (∀ l ∈ splitOnChar '\n' "print(\"hi\")".data, lineRequirement l = none) ∧
      ((run_python_file "hello.py".data "abc12345".data "print(\"hi\")".data
          true none 7 [] []).ok = true ∧
        (run_python_file "hello.py".data "abc12345".data "print(\"hi\")".data
          true none 7 [] []).portAssigned = some 5000 ∧
        (run_python_file "hello.py".data "abc12345".data "print(\"hi\")".data
          true none 7 [] []).slept = true ∧
        lookupReg (run_python_file "hello.py".data "abc12345".data "print(\"hi\")".data
            true none 7 [] []).reg "abc12345".data
          = some { pid := "abc12345".data, filename := "hello.py".data, port := some 5000,
                   log_file := logPath "abc12345".data, process := some 7 }) :=
  ⟨by decide, default_sniff_spawns_server_style "hello.py".data "abc12345".data
      "print(\"hi\")".data 7 [] [] (by decide)⟩

/-- Claim C2, counterexample: when the installer fails, `run_python_file`
returns failure with no Run registered and the child never launched, but the
run's log file stays empty — no error text is written to it, refuting the
claim's log conjunct. -/
theorem installer_failure_log_empty :
    run_python_file "hello.py".data "abc12345".data "print(\"hi\")".data
        false none 7 [] [] =
      { ok := false, reg := [], log := [], spawned := false,
        portAssigned := none, envPort := none, slept := false } := by
  decide

/-- Claim C2, amended: for every spawn in which the Dependency Installer fails,
no Run is registered, the child process is never launched, and `run_python_file`
returns failure — but nothing is written to the run's log file (the error is
only printed to the server console). -/
theorem installer_failure_aborts_without_log (filename pid code : List Char)
    (pipOk : Bool) (spawnExc : Option (List Char)) (newHandle : Nat)
    (reg : Registry) (log : List Char)
    (h : install_requirements (get_requirements_from_code code) pipOk = false) :
    run_python_file filename pid code pipOk spawnExc newHandle reg log =
      { ok := false, reg := reg, log := log, spawned := false,
        portAssigned := none, envPort := none, slept := false } := by
  simp [run_python_file, h]

/-- Claim C2 witness for the amended theorem, at a failing installer. -/
theorem installer_failure_aborts_without_log_witness :
    install_requirements (get_requirements_from_code "print(\"hi\")".data) false = false ∧
      run_python_file "hello.py".data "abc12345".data "print(\"hi\")".data
          false none 7 [] [] =
        { ok := false, reg := [], log := [], spawned := false,
          portAssigned := none, envPort := none, slept := false } :=
  ⟨by decide, installer_failure_aborts_without_log "hello.py".data "abc12345".data
      "print(\"hi\")".data false none 7 [] [] (by decide)⟩

/-- Claim C3: when no line of the script maps to a recognized module, the
sniffer returns exactly the single-element default package list `['flask']`. -/
theorem sniffer_default_package (code : List Char)
    (h : ∀ l ∈ splitOnChar '\n' code, lineRequirement l = none) :
    get_requirements_from_code code = ["flask".data] :=
  get_requirements_default code h

/-- Claim C3 witness, at the `print("hi")` script. -/
theorem sniffer_default_package_witness :
    (∀ l ∈ splitOnChar '\n' "print(\"hi\")".data, lineRequirement l = none) ∧
      get_requirements_from_code "print(\"hi\")".data = ["flask".data] :=
  ⟨by decide, sniffer_default_package "print(\"hi\")".data (by decide)⟩

/-- Claim C4: when some line maps to a recognized module's package, that
package is in the sniffer's result, and the result never contains duplicates. -/
theorem sniffer_mapped_and_nodup (code pkg : List Char)
    (h : ∃ l ∈ splitOnChar '\n' code, lineRequirement l = some pkg) :
    pkg ∈ get_requirements_from_code code ∧
      (get_requirements_from_code code).Nodup := by
  obtain ⟨l, hl, hreq⟩ := h
  have hmem : pkg ∈ (splitOnChar '\n' code).filterMap lineRequirement :=
    List.mem_filterMap.mpr ⟨l, hl, hreq⟩
  have hne : (splitOnChar '\n' code).filterMap lineRequirement ≠ [] :=
    List.ne_nil_of_mem hmem
  simp only [get_requirements_from_code]
  rw [if_neg hne]
  exact ⟨List.mem_dedup.mpr hmem, List.nodup_dedup _⟩

/-- Claim C4 witness, at a script importing `requests` twice. -/
theorem sniffer_mapped_and_nodup_witness :
    (∃ l ∈ splitOnChar '\n' "import requests\nimport requests".data,
        lineRequirement l = some "requests".data) ∧
      ("requests".data ∈ get_requirements_from_code "import requests\nimport requests".data ∧
        (get_requirements_from_code "import requests\nimport requests".data).Nodup) :=
  ⟨by decide, sniffer_mapped_and_nodup "import requests\nimport requests".data
      "requests".data (by decide)⟩

/-- Claim C5: stopping an unregistered run identity flashes `Process not
found`, raises no exception, and leaves the registry unchanged. -/
theorem stop_unknown_pid_not_found (pid : List Char) (t k : Bool) (reg : Registry)
    (h : lookupReg reg pid = none) :
    stop_process pid t k reg = Except.ok ("Process not found".data, reg) := by
  simp only [stop_process, h]
  rfl

/-- Claim C5 witness, at an empty registry. -/
theorem stop_unknown_pid_not_found_witness :
    lookupReg ([] : Registry) "zz".data = none ∧
      stop_process "zz".data false false [] = Except.ok ("Process not found".data, []) :=
  ⟨by decide, stop_unknown_pid_not_found "zz".data false false [] (by decide)⟩

/-- Claim C6: stopping a registered run identity always removes it from the
registry and flashes success, for every combination of raising/non-raising OS
termination calls (all exceptions are swallowed), and the process handle is
cleared. -/
theorem stop_known_pid_removes_entry (pid : List Char) (t k : Bool) (reg : Registry)
    (m : ManagedProcess) (h : lookupReg reg pid = some m) (hpid : m.pid = pid) :
    m.stop t k reg = Except.ok (true, { m with process := none }, eraseReg reg pid) ∧
      ({ m with process := none } : ManagedProcess).process = none ∧
      stop_process pid t k reg =
        Except.ok ("Process ".data ++ pid ++ " stopped successfully".data,
          eraseReg reg pid) ∧
      lookupReg (eraseReg reg pid) pid = none := by
  have hupd : stopRegUpd reg m.pid = eraseReg reg pid := by
    rw [hpid]
    unfold stopRegUpd
    rw [h]
    rfl
  refine ⟨?_, rfl, ?_, ?_⟩
  · rw [stop_eq, hupd]
  · simp only [stop_process, h]
    rw [stop_eq, hupd, ok_bind]
    rfl
  · rw [lookupReg_eraseReg]
    simp

/-- Claim C6 witness, at a registry holding two runs, with the graceful
termination path raising. -/
theorem stop_known_pid_removes_entry_witness :
    lookupReg sampleReg "a1".data = some sampleRun1 ∧ sampleRun1.pid = "a1".data ∧
      (sampleRun1.stop true true sampleReg =
          Except.ok (true, { sampleRun1 with process := none },
            eraseReg sampleReg "a1".data) ∧
        ({ sampleRun1 with process := none } : ManagedProcess).process = none ∧
        stop_process "a1".data true true sampleReg =
          Except.ok ("Process ".data ++ "a1".data ++ " stopped successfully".data,
            eraseReg sampleReg "a1".data) ∧
        lookupReg (eraseReg sampleReg "a1".data) "a1".data = none) :=
  ⟨by decide, by decide,
    stop_known_pid_removes_entry "a1".data true true sampleReg sampleRun1
      (by decide) (by decide)⟩

/-- Claim C7: deleting a stored script stops every registered run whose source
filename equals the script's name (all such identities end up absent from the
registry, however many there are), and removes the file from storage. -/
theorem delete_file_stops_runs_and_removes (filename : List Char)
    (raises : List Char → Bool × Bool) (reg : Registry) (files : List (List Char))
    (hwf : ∀ p ∈ reg, (p : List Char × ManagedProcess).2.pid = p.1)
    (hnd : files.Nodup) (hmem : filename ∈ files) :
    delete_file filename raises reg files =
        Except.ok ("File ".data ++ filename ++ " deleted successfully".data,
          stopMatchingPure filename reg reg, files.erase filename) ∧
      (∀ p ∈ reg, (p : List Char × ManagedProcess).2.filename = filename →
        lookupReg (stopMatchingPure filename reg reg) p.1 = none) ∧
      filename ∉ files.erase filename := by
  refine ⟨?_, stopMatchingPure_stops filename reg reg hwf, hnd.not_mem_erase⟩
  simp only [delete_file, stopMatching_eq, ok_bind]
  rw [if_pos hmem]
  rfl

/-- Claim C7 witness: a registry with two runs of `f.py` (one of whose stop
sequences raises), and a storage folder holding `f.py` and `g.py`. -/
theorem delete_file_stops_runs_and_removes_witness :
    (∀ p ∈ sampleReg, (p : List Char × ManagedProcess).2.pid = p.1) ∧
      (["f.py".data, "g.py".data] : List (List Char)).Nodup ∧
      "f.py".data ∈ (["f.py".data, "g.py".data] : List (List Char)) ∧
      (delete_file "f.py".data (fun _ => (true, false)) sampleReg
            ["f.py".data, "g.py".data] =
          Except.ok ("File ".data ++ "f.py".data ++ " deleted successfully".data,
            stopMatchingPure "f.py".data sampleReg sampleReg,
            (["f.py".data, "g.py".data] : List (List Char)).erase "f.py".data) ∧
        (∀ p ∈ sampleReg, (p : List Char × ManagedProcess).2.filename = "f.py".data →
          lookupReg (stopMatchingPure "f.py".data sampleReg sampleReg) p.1 = none) ∧
        "f.py".data ∉ (["f.py".data, "g.py".data] : List (List Char)).erase "f.py".data) :=
  ⟨by decide, by decide, by decide,
    delete_file_stops_runs_and_removes "f.py".data (fun _ => (true, false)) sampleReg
      ["f.py".data, "g.py".data] (by decide) (by decide) (by decide)⟩

/-- Claim C8: for every server-style spawn that launches, the allocated port is
the fixed base 5000 plus the number of registry entries at allocation time, and
the run registers with that port. -/
theorem server_port_base_plus_count (filename pid code : List Char) (pipOk : Bool)
    (newHandle : Nat) (reg : Registry) (log : List Char)
    (hinst : install_requirements (get_requirements_from_code code) pipOk = true)
    (hsrv : isServerStyle (get_requirements_from_code code) code = true) :
    (run_python_file filename pid code pipOk none newHandle reg log).portAssigned
        = some (5000 + reg.length) ∧
      lookupReg (run_python_file filename pid code pipOk none newHandle reg log).reg pid
        = some { pid := pid, filename := filename, port := some (5000 + reg.length),
                 log_file := logPath pid, process := some newHandle } := by
  simp [run_python_file, hinst, hsrv, lookupReg_insertReg_self]

/-- Claim C8 witness, at a Flask script spawned over a one-entry registry. -/
theorem server_port_base_plus_count_witness :
    install_requirements
        (get_requirements_from_code "import flask\napp.run()".data) true = true ∧
      isServerStyle (get_requirements_from_code "import flask\napp.run()".data)
        "import flask\napp.run()".data = true ∧
      ((run_python_file "server.py".data "cafe0001".data "import flask\napp.run()".data
          true none 9 [("a1".data, sampleRun1)] []).portAssigned = some 5001 ∧
        lookupReg (run_python_file "server.py".data "cafe0001".data
            "import flask\napp.run()".data true none 9
            [("a1".data, sampleRun1)] []).reg "cafe0001".data
          = some { pid := "cafe0001".data, filename := "server.py".data,
                   port := some 5001, log_file := logPath "cafe0001".data,
                   process := some 9 }) :=
  ⟨by decide, by decide,
    server_port_base_plus_count "server.py".data "cafe0001".data
      "import flask\napp.run()".data true 9 [("a1".data, sampleRun1)] []
      (by decide) (by decide)⟩

/-- Claim C9: a run's reported status (dashboard string and the truthiness of
the `/api/processes` `running` field) is "running" exactly when the run holds a
process handle whose exit-poll is still `None`; in every other case it is
"stopped". -/
theorem status_running_iff_live_handle (poll : Nat → Option Int) (m : ManagedProcess) :
    (run_status poll m = "Running".data ↔ ∃ h, m.process = some h ∧ poll h = none) ∧
      (run_status poll m = "Stopped".data ↔ ¬∃ h, m.process = some h ∧ poll h = none) ∧
      ((api_running poll m).getD false = true ↔ ∃ h, m.process = some h ∧ poll h = none) := by
  cases hm : m.process with
  | none => simp [run_status, api_running, hm]
  | some h =>
    by_cases hp : poll h = none <;> simp [run_status, api_running, hm, hp]

/-- Claim C10: for a server-style spawn that launches, the `PORT` environment
override is set if and only if the exact (case-sensitive) substring `port=`
does not occur anywhere in the raw script source. -/
theorem env_port_iff_no_port_substring (filename pid code : List Char) (pipOk : Bool)
    (newHandle : Nat) (reg : Registry) (log : List Char)
    (hinst : install_requirements (get_requirements_from_code code) pipOk = true)
    (hsrv : isServerStyle (get_requirements_from_code code) code = true) :
    (run_python_file filename pid code pipOk none newHandle reg log).envPort
      = if pySubstrIn "port=".data code then none else some (5000 + reg.length) := by
  simp [run_python_file, hinst, hsrv]

/-- Claim C10 witness: a script containing `PORT=` (upper case only) still
receives the environment-assigned port, since the check is case-sensitive. -/
theorem env_port_iff_no_port_substring_witness :
    install_requirements
        (get_requirements_from_code "import flask\nPORT=10\napp.run()".data) true = true ∧
      isServerStyle (get_requirements_from_code "import flask\nPORT=10\napp.run()".data)
        "import flask\nPORT=10\napp.run()".data = true ∧
      (run_python_file "server.py".data "deadbeef".data
          "import flask\nPORT=10\napp.run()".data true none 9 [] []).envPort
        = if pySubstrIn "port=".data "import flask\nPORT=10\napp.run()".data then none
          else some 5000 :=
  ⟨by decide, by decide,
    env_port_iff_no_port_substring "server.py".data "deadbeef".data
      "import flask\nPORT=10\napp.run()".data true 9 [] [] (by decide) (by decide)⟩

end WebsiteHosting
